import Mathlib

/-!
Verification development for the faux fixture library
(src/faux/__init__.py and src/faux/loaders.py).

The Python source is shallowly embedded: the loader registry, the fixture
resolver, the fixture materializer and the lifecycle binder become pure Lean
functions; the in-memory database becomes an explicit `DB` state threaded
through the materializer; Python exceptions become an explicit `PyError`
value carried in `Except` or in an `Option PyError` component of a returned
state.  The repository is Python 2 code (it uses `basestring` and unguarded
`len(filter(...))`), so Python 2 semantics are modelled where they matter.
-/

namespace Faux

/-- Python exception values raised by the embedded code.  Each constructor is
one exception class that the source can raise; `nameError` models a
`NameError` raised when the source evaluates an identifier that is not bound
in the module or the builtins. -/
inductive PyError where
  | ioError (msg : String)
  | nameError (undefinedName : String)
  | runtimeError (msg : String)
  | attributeError (msg : String)
  | valueError (msg : String)
  | importError (msg : String)
  | operationalError (msg : String)
  | exception (msg : String)
deriving DecidableEq, Repr

/-- Index of the last occurrence of character `c` in `cs`, if any
(Python `str.rfind`, with `none` in place of `-1`). -/
def lastIdxOf (cs : List Char) (c : Char) : Option Nat :=
  ((cs.enum.filter (fun p => p.2 == c)).map Prod.fst).getLast?

/-- Embedding of `os.path.splitext` (posixpath): split off the extension at
the last dot of the final path component, provided some non-dot character
precedes that dot within the component (so dotfiles have no extension). -/
def splitext (p : String) : String × String :=
  let cs := p.data
  match lastIdxOf cs '.' with
  | none => (p, "")
  | some d =>
    let fstart := match lastIdxOf cs '/' with
      | none => 0
      | some s => s + 1
    if fstart ≤ d then
      if ((cs.drop fstart).take (d - fstart)).any (fun ch => ch != '.') then
        (⟨cs.take d⟩, ⟨cs.drop d⟩)
      else (p, "")
    else (p, "")

/-- Embedding of `os.path.isabs` on posix: the path starts with a slash. -/
def isAbs (p : String) : Bool := p.data.head? == some '/'

/-- Embedding of `os.path.join d f` for the cases the source exercises
(`f` relative unless absolute, in which case it wins). -/
def pathJoin (d f : String) : String :=
  if isAbs f then f
  else if d.data.isEmpty || d.data.getLast? == some '/' then d ++ f
  else d ++ "/" ++ f

/-- Embedding of `os.path.dirname` (posixpath): everything before the final
slash, with trailing slashes stripped unless the result is all slashes. -/
def dirname (p : String) : String :=
  match lastIdxOf p.data '/' with
  | none => ""
  | some s =>
    let head := p.data.take (s + 1)
    if head.all (fun ch => ch == '/') then ⟨head⟩
    else ⟨(head.reverse.dropWhile (fun ch => ch == '/')).reverse⟩

/-- A record of a fixture group: a mapping from field names to values
(values abstracted to integers; only their identity matters here). -/
abbrev Record := List (String × Int)

/-- One fixture group as parsed from a fixture file: an optional `model`
key, an optional `table` key, and the `records` list.  A Python dict has a
key or not; `Option` models key presence. -/
structure Fixture where
  model : Option String
  table : Option String
  records : List Record
deriving DecidableEq, Repr

/-- The filesystem visible to the engine: a finite map from existing file
paths to their parsed contents.  The concrete loaders (`JSONLoader._load`,
`YAMLLoader._load`) parse file bytes into the fixture definition; the model
stores the parsed definition directly, so parsing is the identity and the
claims about dispatch and resolution are unaffected. -/
structure FS where
  files : List (String × List Fixture)

/-- Embedding of `os.path.isfile`. -/
def FS.isFile (fs : FS) (p : String) : Bool := (fs.files.lookup p).isSome

/-- Parsed content of a file, if it exists. -/
def FS.content (fs : FS) (p : String) : Option (List Fixture) := fs.files.lookup p

/-- One registered loader subclass of `FixtureLoader`.  `extensions = some l`
models a class with an `extensions` attribute holding `l`; `none` models a
subclass that lacks the attribute (`hasattr(c, 'extensions')` is false). -/
structure LoaderVariant where
  name : String
  extensions : Option (List String)
deriving DecidableEq, Repr

/-- The `JSONLoader` subclass: `extensions = ('.json', '.js')`. -/
def JSONLoader : LoaderVariant := ⟨"JSONLoader", some [".json", ".js"]⟩

/-- The `YAMLLoader` subclass: `extensions = ('.yaml', '.yml')`. -/
def YAMLLoader : LoaderVariant := ⟨"YAMLLoader", some [".yaml", ".yml"]⟩

/-- The registry `FixtureLoader.__subclasses__()` as shipped: the JSON and
YAML loaders, in definition order. -/
def defaultRegistry : List LoaderVariant := [JSONLoader, YAMLLoader]

namespace FixtureLoader

/-- Embedding of `FixtureLoader.supported_extensions`:
`[ext for c in cls.__subclasses__() for ext in c.extensions]`.  The
comprehension reads `c.extensions` on every subclass unconditionally, so a
subclass lacking the attribute makes the attribute access raise
`AttributeError` (carrying the class name). -/
def supported_extensions (registry : List LoaderVariant) : Except PyError (List String) :=
  match registry with
  | [] => .ok []
  | c :: cs =>
    match c.extensions with
    | none => .error (.attributeError c.name)
    | some exts =>
      match supported_extensions cs with
      | .error e => .error e
      | .ok rest => .ok (exts ++ rest)

/-- Embedding of `c()._load(filename)` for the concrete loaders: both open
the file and parse it into the fixture definition, which the model reads
directly from the filesystem map. -/
def variantLoad (fs : FS) (filename : String) : Except PyError (List Fixture) :=
  match fs.content filename with
  | some defs => .ok defs
  | none => .error (.ioError filename)

/-- The dispatch loop of `FixtureLoader.load` over `cls.__subclasses__()`,
returning the result together with the warnings logged along the way.
A subclass without an `extensions` attribute is warned about and skipped;
the first subclass whose extension list contains the file extension handles
the file.  When no subclass matches, the source executes
`raise RuntimeException(...)`; `RuntimeException` is not a name bound in the
module or in the Python builtins (the builtin is `RuntimeError`), so
evaluating it raises `NameError` instead of the intended error. -/
def loadLoop (fs : FS) (filename ext : String) :
    List LoaderVariant → Except PyError (List Fixture) × List String
  | [] => (.error (.nameError "RuntimeException"), [])
  | c :: cs =>
    match c.extensions with
    | none =>
      let r := loadLoop fs filename ext cs
      (r.1, (c.name ++ " does not contain an extensions attribute; it will not be used.") :: r.2)
    | some exts =>
      if ext ∈ exts then (variantLoad fs filename, [])
      else loadLoop fs filename ext cs

/-- Embedding of `FixtureLoader.load`: raise `IOError` if the path is not a
file, otherwise dispatch on the extension (`os.path.splitext`) over the
registered subclasses.  Returns the result and the warnings logged. -/
def load (registry : List LoaderVariant) (fs : FS) (filename : String) :
    Except PyError (List Fixture) × List String :=
  if fs.isFile filename then
    loadLoop fs filename (splitext filename).2 registry
  else
    (.error (.ioError ("No such file: " ++ filename)), [])

end FixtureLoader

/-- The inner directory loop of `Fixtures.find_fixtures` for one relative
fixture name: for each candidate directory in order, join the name to the
directory and keep the candidate when it is a file whose extension is in
`FixtureLoader.supported_extensions()`.  The `and` short-circuits, so the
registry is only consulted when the file exists; the loop has no early exit,
so every matching directory contributes a candidate. -/
def searchDirs (fs : FS) (registry : List LoaderVariant) (filename : String) :
    List String → Except PyError (List String)
  | [] => .ok []
  | d :: ds =>
    let cand := pathJoin d filename
    if fs.isFile cand then
      match FixtureLoader.supported_extensions registry with
      | .error e => .error e
      | .ok supp =>
        match searchDirs fs registry filename ds with
        | .error e => .error e
        | .ok rest =>
          if (splitext cand).2 ∈ supp then .ok (cand :: rest) else .ok rest
    else searchDirs fs registry filename ds

/-- The outer loop of `Fixtures.find_fixtures` over the explicit fixture
names: an absolute name is appended as is (`continue`); a relative name
contributes whatever the directory search finds for it. -/
def findLoop (fs : FS) (registry : List LoaderVariant) (dirs : List String) :
    List String → Except PyError (List String)
  | [] => .ok []
  | nm :: rest =>
    if isAbs nm then
      match findLoop fs registry dirs rest with
      | .error e => .error e
      | .ok r => .ok (nm :: r)
    else
      match searchDirs fs registry nm dirs with
      | .error e => .error e
      | .ok here =>
        match findLoop fs registry dirs rest with
        | .error e => .error e
        | .ok r => .ok (here ++ r)

/-- Embedding of `glob.glob("%s.*" % filepath)`: the existing files whose
path is `base` followed by a dot and a final-component remainder (no slash
in the remainder), in filesystem enumeration order. -/
def globDotStar (fs : FS) (base : String) : List String :=
  (fs.files.map Prod.fst).filter (fun q =>
    (base ++ ".").data.isPrefixOf q.data
      && !(q.data.drop (base ++ ".").data.length).any (fun ch => ch == '/'))

/-- The convention branch of `Fixtures.find_fixtures`: keep the glob matches
whose extension is supported (the registry is consulted per candidate). -/
def globLoop (registry : List LoaderVariant) : List String → Except PyError (List String)
  | [] => .ok []
  | c :: cs =>
    match FixtureLoader.supported_extensions registry with
    | .error e => .error e
    | .ok supp =>
      match globLoop registry cs with
      | .error e => .error e
      | .ok r => if (splitext c).2 ∈ supp then .ok (c :: r) else .ok r

/-- Embedding of `Fixtures.find_fixtures`.  `test_file_path` is the absolute
path of the test unit's source file (`sys.modules[obj.__module__].__file__`);
`fixtures_dirs` are the configured fixture directories; `fixtures` is the
explicit name list (`[]` models both `None` and an empty list, which the
source treats alike).  An empty result raises `Exception`. -/
def find_fixtures (fs : FS) (registry : List LoaderVariant) (test_file_path : String)
    (fixtures_dirs : List String) (fixtures : List String) : Except PyError (List String) :=
  let dirs := dirname test_file_path :: fixtures_dirs
  let found :=
    if fixtures.length > 0 then findLoop fs registry dirs fixtures
    else globLoop registry (globDotStar fs (splitext test_file_path).1)
  match found with
  | .error e => .error e
  | .ok fnd =>
    if fnd.length = 0 then .error (.exception ("Could not find fixtures for " ++ test_file_path))
    else .ok fnd

/-- A mapped data class, as the materializer sees it: `init r` tells whether
`model(**r)` constructs an instance without raising. -/
structure ModelClass where
  init : Record → Bool

/-- The importable environment, flattened to fully-qualified class names.
`importlib.import_module` plus `getattr` is modelled as one lookup; a name
whose module or attribute is missing raises, modelled as `importError`. -/
abbrev ModelEnv := List (String × ModelClass)

/-- Split a dotted name at its last dot (`s.rsplit('.', 1)` with exactly two
parts); `none` when there is no dot, in which case unpacking the single-part
result into two variables raises `ValueError`. -/
def rsplitDot (s : String) : Option (String × String) :=
  match lastIdxOf s.data '.' with
  | none => none
  | some i => some (⟨s.data.take i⟩, ⟨s.data.drop (i + 1)⟩)

/-- Embedding of the model lookup in `Fixtures.load_fixtures`:
`module_name, class_name = fixture['model'].rsplit('.', 1)`, then import the
module and read the class attribute. -/
def resolveModel (env : ModelEnv) (name : String) : Except PyError ModelClass :=
  match rsplitDot name with
  | none => .error (.valueError name)
  | some _ =>
    match env.lookup name with
    | some m => .ok m
    | none => .error (.importError name)

/-- The database state: whether the schema tables currently exist
(`create_all` / `drop_all`), the committed rows tagged by their target
(model name or table name) in commit order, and a cumulative count of
`session.commit()` calls (instrumentation; never reset). -/
structure DB where
  created : Bool
  rows : List (String × Record)
  commits : Nat
deriving Repr

/-- Construct one instance per record (`obj = model(**fields)` then
`session.add(obj)`): fails at the first record the class rejects, in which
case nothing of this unit-of-work is ever committed. -/
def constructAll (m : ModelClass) : List Record → Except PyError (List Record)
  | [] => .ok []
  | r :: rs =>
    if m.init r then
      match constructAll m rs with
      | .error e => .error e
      | .ok rest => .ok (r :: rest)
    else .error (.operationalError "could not construct model instance")

/-- Embedding of one iteration of the `for fixture in fixtures` loop in
`Fixtures.load_fixtures`.  A `model` group resolves the class, opens a fresh
session (`session = self._session_class()`), stages one instance per record
and commits that session; a `table` group bulk-inserts its records through
the connection (autocommitting), failing when the named table is not part of
the created schema; a group with neither key raises `ValueError`. -/
def applyFixture (env : ModelEnv) (metadata : List String) (fx : Fixture) (db : DB) :
    DB × Option PyError :=
  match fx.model with
  | some modelName =>
    match resolveModel env modelName with
    | .error e => (db, some e)
    | .ok m =>
      match constructAll m fx.records with
      | .error e => (db, some e)
      | .ok staged =>
        ({ db with rows := db.rows ++ staged.map (fun r => (modelName, r)),
                   commits := db.commits + 1 }, none)
  | none =>
    match fx.table with
    | some t =>
      if metadata.contains t && db.created then
        ({ db with rows := db.rows ++ fx.records.map (fun r => (t, r)) }, none)
      else (db, some (.operationalError t))
    | none => (db, some (.valueError "Fixture missing a model or table field"))

/-- Embedding of `Fixtures.load_fixtures`: apply one file's fixture groups
in order; the first raising group aborts the loop, leaving the state the
earlier groups already committed. -/
def load_fixtures (env : ModelEnv) (metadata : List String) :
    List Fixture → DB → DB × Option PyError
  | [], db => (db, none)
  | fx :: rest, db =>
    match applyFixture env metadata fx db with
    | (db1, some e) => (db1, some e)
    | (db1, none) => load_fixtures env metadata rest db1

/-- The fixture-file loop of `Fixtures.setup`: for each resolved path,
`self.load_fixtures(FixtureLoader.load(filepath))`.  Returns the state, the
first error if any, and the list of paths whose load was reached. -/
def setupLoop (env : ModelEnv) (metadata : List String) (registry : List LoaderVariant)
    (fs : FS) : List String → DB → DB × Option PyError × List String
  | [], db => (db, none, [])
  | p :: ps, db =>
    match (FixtureLoader.load registry fs p).1 with
    | .error e => (db, some e, [p])
    | .ok fixtures =>
      match load_fixtures env metadata fixtures db with
      | (db1, some e) => (db1, some e, [p])
      | (db1, none) =>
        match setupLoop env metadata registry fs ps db1 with
        | (db2, err, used) => (db2, err, p :: used)

/-- Embedding of `Fixtures.setup`: `self._metadata.create_all(self._engine)`
first (so the schema exists even if a later load fails), then load every
resolved fixture file in order. -/
def setup (env : ModelEnv) (metadata : List String) (registry : List LoaderVariant)
    (fs : FS) (paths : List String) (db : DB) : DB × Option PyError × List String :=
  setupLoop env metadata registry fs paths { db with created := true }

/-- Embedding of `Fixtures.teardown`: `self._metadata.drop_all(self._engine)`
removes the schema and with it every row. -/
def teardown (db : DB) : DB := { db with created := false, rows := [] }

/-- Observable steps of one invocation of a wrapped test function. -/
inductive Event where
  | setupStarted
  | setupCompleted
  | sessionAssigned
  | bodyRun
  | teardownRun
deriving DecidableEq, Repr

/-- Result of invoking the wrapper produced by `Fixtures.wrap_method`: the
final database state, the exception that propagates to the caller (if any),
the ordered trace of steps performed, and the fixture paths whose load was
reached during setup. -/
structure RunResult where
  db : DB
  err : Option PyError
  trace : List Event
  usedFixtures : List String

/-- Embedding of the `wrapper` closure built by `Fixtures.wrap_method`:

```
self.setup(fixtures)
_self.__class__.session = self._session_class()
try:
    method(_self, *args, **kwargs)
finally:
    self.teardown()
```

`self.setup(fixtures)` runs before the `try`, so an exception it raises
propagates without the `finally` clause ever being entered: no session is
assigned and `teardown` is not called.  Once setup returns, the test body
runs and `teardown` runs exactly once on the way out, after which the
body's exception (if any) propagates. -/
def runWrapped (env : ModelEnv) (metadata : List String) (registry : List LoaderVariant)
    (fs : FS) (fixtures : List String) (body : DB → DB × Option PyError) (db : DB) :
    RunResult :=
  match setup env metadata registry fs fixtures db with
  | (db1, some e, used) => ⟨db1, some e, [.setupStarted], used⟩
  | (db1, none, used) =>
    let r := body db1
    ⟨teardown r.1, r.2,
      [.setupStarted, .setupCompleted, .sessionAssigned, .bodyRun, .teardownRun], used⟩

/-- The wrapped test returned by `Fixtures.wrap_method`: the closure keeps
the fixture list resolved at decoration time (`fixtures =
self.find_fixtures(method, fixtures)` runs before `wrapper` is defined). -/
structure WrappedTest where
  resolvedFixtures : List String

/-- Embedding of `Fixtures.wrap_method`: resolve the fixtures once, at
decoration time, and return a wrapper closed over the resolved list. -/
def wrap_method (fs : FS) (registry : List LoaderVariant) (test_file_path : String)
    (fixtures_dirs : List String) (fixtures : List String) : Except PyError WrappedTest :=
  match find_fixtures fs registry test_file_path fixtures_dirs fixtures with
  | .error e => .error e
  | .ok paths => .ok ⟨paths⟩

/-- Invoking the wrapped test later, against whatever filesystem exists at
call time: the wrapper runs with the fixture list captured at decoration. -/
def invokeWrapped (env : ModelEnv) (metadata : List String) (registry : List LoaderVariant)
    (fsAtCall : FS) (w : WrappedTest) (body : DB → DB × Option PyError) (db : DB) :
    RunResult :=
  runWrapped env metadata registry fsAtCall w.resolvedFixtures body db

/-- Embedding of `', '.join(...)` over a list of names. -/
def joinComma : List String → String
  | [] => ""
  | [s] => s
  | s :: rest => s ++ ", " ++ joinComma rest

/-- What the class-level hook installed by `Fixtures.wrap_class.wrap_method`
does when the test runner invokes it, in order. -/
inductive HookAction where
  /-- Call the captured fixtures function (`self.setup(fixtures)` for the
  setup hook, `self.teardown()` for the teardown hook). -/
  | runFixturesFn
  /-- Execute `cls.session = self._session_class()`. -/
  | assignSession
  /-- Invoke the pre-existing user hook of the given name. -/
  | runOriginal (original : String)
deriving DecidableEq, Repr

/-- A class-level hook after binding: the attribute name it is installed
under and the ordered actions its body performs. -/
structure BoundHook where
  installedName : String
  actions : List HookAction
deriving DecidableEq, Repr

/-- The recognized class-level setup hook aliases, in source order. -/
def CLASS_SETUP_NAMES : List String :=
  ["setup_class", "setup_all", "setupClass", "setupAll", "setUpClass", "setUpAll"]

/-- The recognized class-level teardown hook aliases, in source order. -/
def CLASS_TEARDOWN_NAMES : List String :=
  ["teardown_class", "teardown_all", "teardownClass", "teardownAll",
   "tearDownClass", "tearDownAll"]

/-- Default name under which a setup hook is installed when none exists. -/
def DEFAULT_CLASS_SETUP_NAME : String := "setUpClass"

/-- Default name under which a teardown hook is installed when none exists. -/
def DEFAULT_CLASS_TEARDOWN_NAME : String := "tearDownClass"

/-- Embedding of the inner `wrap_method` helper of `Fixtures.wrap_class`.
`defined` is the set of attribute names defined on (or inherited by) the
class; `methods = filter(None, [getattr(cls, name, None) for name in names])`
becomes the alias names present, in `names` order (this is Python 2, where
`filter` returns a list so `len(methods)` is well defined).  More than one
alias raises `RuntimeError` joining all their names; exactly one is wrapped
(fixtures function, then session assignment, then the original body) and
reinstalled under the original's name (`functools.update_wrapper` gives the
wrapper the original's `__name__`); none installs a hook under the default
name whose body only runs the fixtures function. -/
def wrapHook (defined : List String) (names : List String) (default_name : String) :
    Except PyError BoundHook :=
  let methods := names.filter (fun n => defined.contains n)
  if methods.length > 1 then
    .error (.runtimeError
      ("Cannot have more than one setup/teardown method, found " ++ joinComma methods))
  else if methods.length = 1 then
    let m := methods.headD default_name
    .ok ⟨m, [.runFixturesFn, .assignSession, .runOriginal m]⟩
  else
    .ok ⟨default_name, [.runFixturesFn]⟩

/-- A class after binding by `Fixtures.wrap_class`: the fixture list
resolved at decoration time plus the two installed hooks. -/
structure BoundClass where
  resolvedFixtures : List String
  setupHook : BoundHook
  teardownHook : BoundHook
deriving DecidableEq, Repr

/-- Embedding of `Fixtures.wrap_class`: resolve the fixtures once, then wrap
the setup aliases and the teardown aliases with the same helper (so both
hook kinds get the same conflict check and the same wrapper shape). -/
def wrap_class (fs : FS) (registry : List LoaderVariant) (test_file_path : String)
    (fixtures_dirs : List String) (fixtures : List String) (defined : List String) :
    Except PyError BoundClass :=
  match find_fixtures fs registry test_file_path fixtures_dirs fixtures with
  | .error e => .error e
  | .ok paths =>
    match wrapHook defined CLASS_SETUP_NAMES DEFAULT_CLASS_SETUP_NAME with
    | .error e => .error e
    | .ok su =>
      match wrapHook defined CLASS_TEARDOWN_NAMES DEFAULT_CLASS_TEARDOWN_NAME with
      | .error e => .error e
      | .ok td => .ok ⟨paths, su, td⟩

/-- Running the fixtures function of a bound class's setup hook
(`lambda: self.setup(fixtures)`) against the filesystem at call time: it
materializes exactly the paths resolved at decoration time. -/
def invokeClassSetup (env : ModelEnv) (metadata : List String)
    (registry : List LoaderVariant) (fsAtCall : FS) (bc : BoundClass) (db : DB) :
    DB × Option PyError × List String :=
  setup env metadata registry fsAtCall bc.resolvedFixtures db

/-- Skipping a loader subclass that lacks an `extensions` attribute does not
change the result of the dispatch loop (only the logged warnings). -/
theorem loadLoop_skip_broken (fs : FS) (filename ext : String) (v : LoaderVariant)
    (hv : v.extensions = none) (pre post : List LoaderVariant) :
    (FixtureLoader.loadLoop fs filename ext (pre ++ v :: post)).1
      = (FixtureLoader.loadLoop fs filename ext (pre ++ post)).1 := by
  induction pre with
  | nil => simp [FixtureLoader.loadLoop, hv]
  | cons c cs ih =>
    cases hc : c.extensions with
    | none => simpa [FixtureLoader.loadLoop, hc] using ih
    | some exts =>
      by_cases hm : ext ∈ exts <;>
        simp [FixtureLoader.loadLoop, hc, hm, ih]

/-- When the dispatch scan reaches a subclass lacking an `extensions`
attribute (no earlier subclass matched), its warning is logged. -/
theorem loadLoop_warns (fs : FS) (filename ext : String) (v : LoaderVariant)
    (hv : v.extensions = none) (pre post : List LoaderVariant) :
    (∀ c ∈ pre, ∀ exts, c.extensions = some exts → ext ∉ exts) →
    (v.name ++ " does not contain an extensions attribute; it will not be used.")
      ∈ (FixtureLoader.loadLoop fs filename ext (pre ++ v :: post)).2 := by
  induction pre with
  | nil => intro _; simp [FixtureLoader.loadLoop, hv]
  | cons c cs ih =>
    intro hno
    have hcs : ∀ c' ∈ cs, ∀ exts, c'.extensions = some exts → ext ∉ exts :=
      fun c' h => hno c' (List.mem_cons_of_mem _ h)
    cases hc : c.extensions with
    | none =>
      simp only [List.cons_append, FixtureLoader.loadLoop, hc, List.mem_cons]
      exact Or.inr (ih hcs)
    | some exts =>
      have hmatch := hno c (List.mem_cons_self _ _) exts hc
      simpa [FixtureLoader.loadLoop, hc, hmatch] using ih hcs

/-- A registry containing any subclass lacking an `extensions` attribute
makes `supported_extensions` raise an `AttributeError`. -/
theorem supported_extensions_broken (v : LoaderVariant) (hv : v.extensions = none)
    (pre post : List LoaderVariant) :
    ∃ m, FixtureLoader.supported_extensions (pre ++ v :: post)
      = .error (.attributeError m) := by
  induction pre with
  | nil => exact ⟨v.name, by simp [FixtureLoader.supported_extensions, hv]⟩
  | cons c cs ih =>
    cases hc : c.extensions with
    | none => exact ⟨c.name, by simp [FixtureLoader.supported_extensions, hc]⟩
    | some exts =>
      obtain ⟨m, hm⟩ := ih
      exact ⟨m, by simp [FixtureLoader.supported_extensions, hc, hm]⟩

/-- C7: for every explicit fixture name that is an absolute path, fixture
resolution includes exactly that path, unchanged, in the resolved list,
regardless of the filesystem (so regardless of whether the file exists) and
regardless of the registry (so regardless of extension support). -/
theorem C7_absolute_name_passes_through (fs : FS) (registry : List LoaderVariant)
    (test_file_path : String) (fixtures_dirs : List String) (name : String)
    (h : isAbs name = true) :
    find_fixtures fs registry test_file_path fixtures_dirs [name] = .ok [name] := by
  simp [find_fixtures, findLoop, h]

/-- Witness for C7 at a concrete absolute path over an empty filesystem. -/
theorem C7_witness :
    isAbs "/abs/fx.json" = true ∧
    find_fixtures ⟨[]⟩ defaultRegistry "/t/test_x.py" [] ["/abs/fx.json"]
      = .ok ["/abs/fx.json"] :=
  ⟨by decide,
   C7_absolute_name_passes_through ⟨[]⟩ defaultRegistry "/t/test_x.py" [] "/abs/fx.json"
     (by decide)⟩

/-- C4: loading an existing file whose extension no registered loader
declares does not fail with the intended unsupported-format error: the
source executes `raise RuntimeException(...)` and `RuntimeException` is an
undefined name, so the call fails with a `NameError` (which names neither
the path nor the format), never with the intended `RuntimeError`. -/
theorem C4_unsupported_extension_raises_nameError (fs : FS) (filename : String)
    (hfile : fs.isFile filename = true)
    (h1 : (splitext filename).2 ∉ ([".json", ".js"] : List String))
    (h2 : (splitext filename).2 ∉ ([".yaml", ".yml"] : List String)) :
    (FixtureLoader.load defaultRegistry fs filename).1
      = .error (.nameError "RuntimeException") ∧
    ∀ msg, (FixtureLoader.load defaultRegistry fs filename).1
      ≠ .error (.runtimeError msg) := by
  have hres : (FixtureLoader.load defaultRegistry fs filename).1
      = .error (.nameError "RuntimeException") := by
    simp [FixtureLoader.load, hfile, defaultRegistry, FixtureLoader.loadLoop,
      JSONLoader, YAMLLoader, h1, h2]
  exact ⟨hres, by intro msg hcontra; rw [hres] at hcontra; simp at hcontra⟩

/-- Witness for C4: an existing file `/t/data.txt` with extension `.txt`. -/
theorem C4_witness :
    (FixtureLoader.load defaultRegistry ⟨[("/t/data.txt", [])]⟩ "/t/data.txt").1
      = .error (.nameError "RuntimeException") ∧
    ∀ msg, (FixtureLoader.load defaultRegistry ⟨[("/t/data.txt", [])]⟩ "/t/data.txt").1
      ≠ .error (.runtimeError msg) :=
  C4_unsupported_extension_raises_nameError ⟨[("/t/data.txt", [])]⟩ "/t/data.txt"
    (by decide) (by decide) (by decide)

/-- C9 counterexample: with a registered variant lacking an extension set,
querying the supported extensions does not succeed — it raises an
`AttributeError` when the comprehension reads the missing attribute. -/
theorem C9_counterexample :
    FixtureLoader.supported_extensions [⟨"BrokenLoader", none⟩, JSONLoader, YAMLLoader]
      = .error (.attributeError "BrokenLoader") ∧
    ∀ exts, FixtureLoader.supported_extensions
        [⟨"BrokenLoader", none⟩, JSONLoader, YAMLLoader] ≠ .ok exts := by
  refine ⟨rfl, ?_⟩
  intro exts hcontra
  simp [FixtureLoader.supported_extensions] at hcontra

/-- C9 as amended: a variant lacking a valid extension set is excluded from
load dispatch (same load result with or without it) with a logged warning
when the scan reaches it, but querying the supported extensions raises an
`AttributeError` rather than succeeding. -/
theorem C9_broken_variant_dispatch (pre post : List LoaderVariant) (v : LoaderVariant)
    (hv : v.extensions = none) (fs : FS) (filename : String) :
    (FixtureLoader.load (pre ++ v :: post) fs filename).1
      = (FixtureLoader.load (pre ++ post) fs filename).1 ∧
    (fs.isFile filename = true →
      (∀ c ∈ pre, ∀ exts, c.extensions = some exts →
        (splitext filename).2 ∉ exts) →
      (v.name ++ " does not contain an extensions attribute; it will not be used.")
        ∈ (FixtureLoader.load (pre ++ v :: post) fs filename).2) ∧
    ∃ m, FixtureLoader.supported_extensions (pre ++ v :: post)
      = .error (.attributeError m) := by
  refine ⟨?_, ?_, supported_extensions_broken v hv pre post⟩
  · by_cases hf : fs.isFile filename <;>
      simp [FixtureLoader.load, hf, loadLoop_skip_broken fs filename _ v hv pre post]
  · intro hf hno
    simpa [FixtureLoader.load, hf] using
      loadLoop_warns fs filename (splitext filename).2 v hv pre post hno

/-- Witness for C9's amended theorem: a broken variant registered first,
with an existing `.json` file still dispatched to the JSON loader. -/
theorem C9_witness :
    (FixtureLoader.load [⟨"BrokenLoader", none⟩, JSONLoader, YAMLLoader]
        ⟨[("/t/b.json", [])]⟩ "/t/b.json").1
      = (FixtureLoader.load [JSONLoader, YAMLLoader] ⟨[("/t/b.json", [])]⟩ "/t/b.json").1 ∧
    ∃ m, FixtureLoader.supported_extensions [⟨"BrokenLoader", none⟩, JSONLoader, YAMLLoader]
      = .error (.attributeError m) :=
  ⟨(C9_broken_variant_dispatch [] [JSONLoader, YAMLLoader] ⟨"BrokenLoader", none⟩ rfl
      ⟨[("/t/b.json", [])]⟩ "/t/b.json").1,
   (C9_broken_variant_dispatch [] [JSONLoader, YAMLLoader] ⟨"BrokenLoader", none⟩ rfl
      ⟨[("/t/b.json", [])]⟩ "/t/b.json").2.2⟩

/-- The directory search for one relative name keeps, in directory order,
the joined candidate of every directory where it exists as a file with a
supported extension: the loop has no first-match cutoff. -/
theorem searchDirs_filter (fs : FS) (registry : List LoaderVariant) (name : String)
    (supp : List String)
    (hsupp : FixtureLoader.supported_extensions registry = .ok supp)
    (dirs : List String) :
    searchDirs fs registry name dirs =
      .ok ((dirs.filter (fun d => fs.isFile (pathJoin d name)
          && decide ((splitext (pathJoin d name)).2 ∈ supp))).map
        (fun d => pathJoin d name)) := by
  induction dirs with
  | nil => rfl
  | cons d ds ih =>
    by_cases hf : fs.isFile (pathJoin d name)
    · by_cases he : (splitext (pathJoin d name)).2 ∈ supp
      · simp [searchDirs, hf, hsupp, ih, he]
      · simp [searchDirs, hf, hsupp, ih, he]
    · simp [searchDirs, hf, ih]

/-- C3 counterexample: the claim promises exactly one path per explicit
relative name (first matching directory only), but a name present in both
the test file's directory and a configured fixtures directory contributes
both paths, because the search loop has no break. -/
theorem C3_counterexample :
    find_fixtures ⟨[("/t/f.json", []), ("/d/f.json", [])]⟩ defaultRegistry
      "/t/test_x.py" ["/d"] ["f.json"] = .ok ["/t/f.json", "/d/f.json"] ∧
    (["/t/f.json", "/d/f.json"] : List String).length ≠ 1 :=
  ⟨rfl, by decide⟩

/-- C3 as amended: for an explicit relative fixture name, resolution
searches the candidate directories in order (test unit's directory first,
then the configured fixture directories) and accepts every directory
containing a file of exactly that name with a supported extension, each
matching directory contributing one path (so a name found in several
directories contributes several paths). -/
theorem C3_relative_name_matches_every_dir (fs : FS) (registry : List LoaderVariant)
    (test_file_path : String) (fixtures_dirs : List String) (name : String)
    (supp : List String)
    (hsupp : FixtureLoader.supported_extensions registry = .ok supp)
    (hrel : isAbs name = false) :
    find_fixtures fs registry test_file_path fixtures_dirs [name] =
      (let ms := ((dirname test_file_path :: fixtures_dirs).filter
          (fun d => fs.isFile (pathJoin d name)
            && decide ((splitext (pathJoin d name)).2 ∈ supp))).map
        (fun d => pathJoin d name)
       if ms.length = 0 then
         .error (.exception ("Could not find fixtures for " ++ test_file_path))
       else .ok ms) := by
  simp only [find_fixtures, findLoop, hrel, Bool.false_eq_true, if_false,
    searchDirs_filter fs registry name supp hsupp]
  simp

/-- Witness for C3's amended theorem at a concrete two-directory layout. -/
theorem C3_witness :
    find_fixtures ⟨[("/t/f2.json", []), ("/d2/f2.json", [])]⟩ defaultRegistry
      "/t/test_y.py" ["/d2"] ["f2.json"] = .ok ["/t/f2.json", "/d2/f2.json"] :=
  (C3_relative_name_matches_every_dir ⟨[("/t/f2.json", []), ("/d2/f2.json", [])]⟩
    defaultRegistry "/t/test_y.py" ["/d2"] "f2.json"
    [".json", ".js", ".yaml", ".yml"] rfl (by decide)).trans rfl

/-- Rows that one successful `model` group commits, in record order. -/
def modelGroupRows (fx : Fixture) : List (String × Record) :=
  match fx.model with
  | some n => fx.records.map (fun r => (n, r))
  | none => []

/-- Whether a `model` group materializes without raising: the class name
resolves and every record constructs an instance. -/
def modelGroupOk (env : ModelEnv) (fx : Fixture) : Bool :=
  match fx.model with
  | none => false
  | some n =>
    match resolveModel env n with
    | .error _ => false
    | .ok m => fx.records.all m.init

/-- Staging succeeds on a record list the class accepts throughout. -/
theorem constructAll_of_all (m : ModelClass) (l : List Record) (h : l.all m.init = true) :
    constructAll m l = .ok l := by
  induction l with
  | nil => rfl
  | cons r rs ih =>
    rw [List.all_cons, Bool.and_eq_true] at h
    simp [constructAll, h.1, ih h.2]

/-- Staging raises once some record fails to construct. -/
theorem constructAll_err (m : ModelClass) (l : List Record) (h : l.all m.init = false) :
    ∃ e, constructAll m l = .error e := by
  induction l with
  | nil => simp at h
  | cons r rs ih =>
    by_cases hr : m.init r
    · have hrs : rs.all m.init = false := by simpa [List.all_cons, hr] using h
      obtain ⟨e, he⟩ := ih hrs
      exact ⟨e, by simp [constructAll, hr, he]⟩
    · exact ⟨.operationalError "could not construct model instance",
        by simp [constructAll, hr]⟩

/-- A `model` group that materializes cleanly appends exactly its rows and
performs exactly one `session.commit()`. -/
theorem applyFixture_model_ok (env : ModelEnv) (metadata : List String) (fx : Fixture)
    (db : DB) (h : modelGroupOk env fx = true) :
    applyFixture env metadata fx db =
      ({ db with rows := db.rows ++ modelGroupRows fx,
                 commits := db.commits + 1 }, none) := by
  cases hm : fx.model with
  | none => simp [modelGroupOk, hm] at h
  | some n =>
    cases hr : resolveModel env n with
    | error e => simp [modelGroupOk, hm, hr] at h
    | ok mcls =>
      have hall : fx.records.all mcls.init = true := by
        simpa [modelGroupOk, hm, hr] using h
      simp [applyFixture, hm, hr, constructAll_of_all mcls fx.records hall,
        modelGroupRows]

/-- A `model` group with an unresolvable class or a rejected record raises
and leaves the database unchanged: its fresh unit-of-work never commits. -/
theorem applyFixture_model_err (env : ModelEnv) (metadata : List String) (fx : Fixture)
    (db : DB) (hm : fx.model.isSome = true) (h : modelGroupOk env fx = false) :
    ∃ e, applyFixture env metadata fx db = (db, some e) := by
  cases hmm : fx.model with
  | none => rw [hmm] at hm; simp at hm
  | some n =>
    cases hr : resolveModel env n with
    | error e => exact ⟨e, by simp [applyFixture, hmm, hr]⟩
    | ok mcls =>
      have hall : fx.records.all mcls.init = false := by
        simpa [modelGroupOk, hmm, hr] using h
      obtain ⟨e, he⟩ := constructAll_err mcls fx.records hall
      exact ⟨e, by simp [applyFixture, hmm, hr, he]⟩

/-- C2 counterexample: a fixture file with two `model` groups where the
second group's record is invalid.  The claim says nothing from the file is
committed, but the first group's row is already committed (and one commit
has already happened) when the error aborts the loop. -/
theorem C2_counterexample :
    (load_fixtures
        [("m.A", ⟨fun _ => true⟩), ("m.B", ⟨fun r => r.any (fun p => p.1 == "id")⟩)] []
        [⟨some "m.A", none, [[("id", 1)]]⟩, ⟨some "m.B", none, [[("name", 2)]]⟩]
        ⟨true, [], 0⟩).1.rows = [("m.A", [("id", 1)])] ∧
    (load_fixtures
        [("m.A", ⟨fun _ => true⟩), ("m.B", ⟨fun r => r.any (fun p => p.1 == "id")⟩)] []
        [⟨some "m.A", none, [[("id", 1)]]⟩, ⟨some "m.B", none, [[("name", 2)]]⟩]
        ⟨true, [], 0⟩).1.commits = 1 ∧
    (load_fixtures
        [("m.A", ⟨fun _ => true⟩), ("m.B", ⟨fun r => r.any (fun p => p.1 == "id")⟩)] []
        [⟨some "m.A", none, [[("id", 1)]]⟩, ⟨some "m.B", none, [[("name", 2)]]⟩]
        ⟨true, [], 0⟩).2.isSome = true :=
  ⟨rfl, rfl, rfl⟩

/-- C2 as amended: materialization opens one unit-of-work per `model` group
(not per file) and commits once per group; an error while resolving or
constructing a group's records aborts that group with none of its rows
committed, but every earlier group of the same file is already committed. -/
theorem C2_commit_once_per_model_group (env : ModelEnv) (metadata : List String)
    (good : List Fixture) (bad : Fixture) (rest : List Fixture) (db : DB)
    (hgood : ∀ g ∈ good, modelGroupOk env g = true)
    (hbadm : bad.model.isSome = true) (hbad : modelGroupOk env bad = false) :
    ∃ e, load_fixtures env metadata (good ++ bad :: rest) db =
      ({ db with rows := db.rows ++ (good.map modelGroupRows).flatten,
                 commits := db.commits + good.length }, some e) := by
  induction good generalizing db with
  | nil =>
    obtain ⟨e, he⟩ := applyFixture_model_err env metadata bad db hbadm hbad
    exact ⟨e, by simp [load_fixtures, he]⟩
  | cons g gs ih =>
    have hg := hgood g (List.mem_cons_self g gs)
    have hgs : ∀ g' ∈ gs, modelGroupOk env g' = true :=
      fun g' hmem => hgood g' (List.mem_cons_of_mem _ hmem)
    obtain ⟨e, he⟩ :=
      ih ({ db with rows := db.rows ++ modelGroupRows g, commits := db.commits + 1 }) hgs
    refine ⟨e, ?_⟩
    simp only [List.cons_append, load_fixtures, List.append_eq,
      applyFixture_model_ok env metadata g db hg]
    rw [he]
    simp [List.append_assoc, DB.mk.injEq, Prod.mk.injEq]
    omega

/-- Witness for C2's amended theorem at the two-group file above. -/
theorem C2_witness :
    ∃ e, load_fixtures
        [("m.A", ⟨fun _ => true⟩), ("m.B", ⟨fun r => r.any (fun p => p.1 == "id")⟩)] []
        [⟨some "m.A", none, [[("id", 1)]]⟩, ⟨some "m.B", none, [[("name", 2)]]⟩]
        ⟨true, [], 0⟩ = (⟨true, [("m.A", [("id", 1)])], 1⟩, some e) :=
  C2_commit_once_per_model_group
    [("m.A", ⟨fun _ => true⟩), ("m.B", ⟨fun r => r.any (fun p => p.1 == "id")⟩)] []
    [⟨some "m.A", none, [[("id", 1)]]⟩] ⟨some "m.B", none, [[("name", 2)]]⟩ []
    ⟨true, [], 0⟩ (by intro g hg; rw [List.mem_singleton] at hg; subst hg; rfl) rfl rfl

/-- Applying one fixture group never changes whether the schema exists. -/
theorem applyFixture_created (env : ModelEnv) (metadata : List String) (fx : Fixture)
    (db : DB) : ((applyFixture env metadata fx db).1).created = db.created := by
  cases hm : fx.model with
  | some n =>
    cases hr : resolveModel env n with
    | error e => simp [applyFixture, hm, hr]
    | ok m =>
      cases hc : constructAll m fx.records with
      | error e => simp [applyFixture, hm, hr, hc]
      | ok staged => simp [applyFixture, hm, hr, hc]
  | none =>
    cases ht : fx.table with
    | some t =>
      by_cases h : t ∈ metadata ∧ db.created = true <;>
        simp [applyFixture, hm, ht, h]
    | none => simp [applyFixture, hm, ht]

/-- Loading a file's fixture groups never changes whether the schema
exists, whether or not it aborts partway. -/
theorem load_fixtures_created (env : ModelEnv) (metadata : List String) :
    ∀ (fxs : List Fixture) (db : DB),
      ((load_fixtures env metadata fxs db).1).created = db.created := by
  intro fxs
  induction fxs with
  | nil => intro db; rfl
  | cons fx rest ih =>
    intro db
    have hc := applyFixture_created env metadata fx db
    rcases ha : applyFixture env metadata fx db with ⟨db1, er⟩
    rw [ha] at hc
    cases er with
    | some e => simpa [load_fixtures, ha] using hc
    | none =>
      have := (ih db1).trans hc
      simpa [load_fixtures, ha] using this

/-- The per-file loop of setup never changes whether the schema exists. -/
theorem setupLoop_created (env : ModelEnv) (metadata : List String)
    (registry : List LoaderVariant) (fs : FS) :
    ∀ (paths : List String) (db : DB),
      ((setupLoop env metadata registry fs paths db).1).created = db.created := by
  intro paths
  induction paths with
  | nil => intro db; rfl
  | cons p ps ih =>
    intro db
    cases hl : (FixtureLoader.load registry fs p).1 with
    | error e => simp [setupLoop, hl]
    | ok fxs =>
      have hc := load_fixtures_created env metadata fxs db
      rcases hlf : load_fixtures env metadata fxs db with ⟨db1, er⟩
      rw [hlf] at hc
      cases er with
      | some e => simpa [setupLoop, hl, hlf] using hc
      | none =>
        have := (ih db1).trans hc
        simpa [setupLoop, hl, hlf] using this

/-- Setup creates the schema first (`metadata.create_all`), so the schema
exists in the state setup leaves behind, whether it succeeded or aborted. -/
theorem setup_created (env : ModelEnv) (metadata : List String)
    (registry : List LoaderVariant) (fs : FS) (paths : List String) (db : DB) :
    ((setup env metadata registry fs paths db).1).created = true :=
  setupLoop_created env metadata registry fs paths { db with created := true }

/-- C6: for every wrapped test function, once setup has completed, teardown
runs exactly once even if the test body raises, and the body's exception
propagates to the caller only after teardown has been applied to the
post-body state. -/
theorem C6_teardown_runs_once (env : ModelEnv) (metadata : List String)
    (registry : List LoaderVariant) (fs : FS) (fixtures : List String)
    (body : DB → DB × Option PyError) (db : DB)
    (hsetup : (setup env metadata registry fs fixtures db).2.1 = none) :
    (runWrapped env metadata registry fs fixtures body db).trace.count .teardownRun = 1 ∧
    (runWrapped env metadata registry fs fixtures body db).err
      = (body (setup env metadata registry fs fixtures db).1).2 ∧
    (runWrapped env metadata registry fs fixtures body db).db
      = teardown (body (setup env metadata registry fs fixtures db).1).1 := by
  rcases hs : setup env metadata registry fs fixtures db with ⟨db1, er, used⟩
  rw [hs] at hsetup
  simp only at hsetup
  subst hsetup
  simp [runWrapped, hs, List.count_cons]

/-- Witness for C6: empty fixture list, a body that raises. -/
theorem C6_witness :
    (runWrapped [] [] defaultRegistry ⟨[]⟩ []
        (fun d => (d, some (.exception "boom"))) ⟨false, [], 0⟩).trace.count
      .teardownRun = 1 ∧
    (runWrapped [] [] defaultRegistry ⟨[]⟩ []
        (fun d => (d, some (.exception "boom"))) ⟨false, [], 0⟩).err
      = (((fun d => (d, some (PyError.exception "boom")))
          (setup [] [] defaultRegistry ⟨[]⟩ [] ⟨false, [], 0⟩).1)).2 ∧
    (runWrapped [] [] defaultRegistry ⟨[]⟩ []
        (fun d => (d, some (.exception "boom"))) ⟨false, [], 0⟩).db
      = teardown (((fun d => (d, some (PyError.exception "boom")))
          (setup [] [] defaultRegistry ⟨[]⟩ [] ⟨false, [], 0⟩).1)).1 :=
  C6_teardown_runs_once [] [] defaultRegistry ⟨[]⟩ []
    (fun d => (d, some (.exception "boom"))) ⟨false, [], 0⟩ rfl

/-- C1 counterexample: a fixture whose only record is invalid makes setup
raise; the wrapper then propagates the error without running teardown, and
the schema created by the aborted setup is still present afterwards —
contradicting the claim that teardown still runs so the schema does not
persist. -/
theorem C1_counterexample :
    (runWrapped [("m.A", ⟨fun r => r.any (fun p => p.1 == "id")⟩)] [] defaultRegistry
        ⟨[("/t/fx.json", [⟨some "m.A", none, [[("name", 1)]]⟩])]⟩ ["/t/fx.json"]
        (fun d => (d, none)) ⟨false, [], 0⟩).err.isSome = true ∧
    (runWrapped [("m.A", ⟨fun r => r.any (fun p => p.1 == "id")⟩)] [] defaultRegistry
        ⟨[("/t/fx.json", [⟨some "m.A", none, [[("name", 1)]]⟩])]⟩ ["/t/fx.json"]
        (fun d => (d, none)) ⟨false, [], 0⟩).trace.count .teardownRun = 0 ∧
    (runWrapped [("m.A", ⟨fun r => r.any (fun p => p.1 == "id")⟩)] [] defaultRegistry
        ⟨[("/t/fx.json", [⟨some "m.A", none, [[("name", 1)]]⟩])]⟩ ["/t/fx.json"]
        (fun d => (d, none)) ⟨false, [], 0⟩).db.created = true :=
  ⟨rfl, rfl, rfl⟩

/-- C1 as amended: if an error occurs during fixture materialization, the
current setup is aborted and the error propagates, but teardown is not run
(setup happens before the `try`/`finally`), so the schema created by the
aborted setup persists in the state the wrapper leaves behind. -/
theorem C1_setup_error_skips_teardown (env : ModelEnv) (metadata : List String)
    (registry : List LoaderVariant) (fs : FS) (fixtures : List String)
    (body : DB → DB × Option PyError) (db : DB) (e : PyError)
    (hsetup : (setup env metadata registry fs fixtures db).2.1 = some e) :
    (runWrapped env metadata registry fs fixtures body db).err = some e ∧
    (runWrapped env metadata registry fs fixtures body db).trace.count .teardownRun = 0 ∧
    (runWrapped env metadata registry fs fixtures body db).db
      = (setup env metadata registry fs fixtures db).1 ∧
    (runWrapped env metadata registry fs fixtures body db).db.created = true := by
  have hcreated := setup_created env metadata registry fs fixtures db
  rcases hs : setup env metadata registry fs fixtures db with ⟨db1, er, used⟩
  rw [hs] at hsetup hcreated
  simp only at hsetup hcreated
  subst hsetup
  simp [runWrapped, hs, hcreated]

/-- Witness for C1's amended theorem at the concrete invalid-record file. -/
theorem C1_witness :
    (runWrapped [("m.B", ⟨fun r => r.any (fun p => p.1 == "id")⟩)] [] defaultRegistry
        ⟨[("/u/fx.json", [⟨some "m.B", none, [[("name", 1)]]⟩])]⟩ ["/u/fx.json"]
        (fun d => (d, none)) ⟨false, [], 0⟩).err
      = some (.operationalError "could not construct model instance") ∧
    (runWrapped [("m.B", ⟨fun r => r.any (fun p => p.1 == "id")⟩)] [] defaultRegistry
        ⟨[("/u/fx.json", [⟨some "m.B", none, [[("name", 1)]]⟩])]⟩ ["/u/fx.json"]
        (fun d => (d, none)) ⟨false, [], 0⟩).trace.count .teardownRun = 0 ∧
    (runWrapped [("m.B", ⟨fun r => r.any (fun p => p.1 == "id")⟩)] [] defaultRegistry
        ⟨[("/u/fx.json", [⟨some "m.B", none, [[("name", 1)]]⟩])]⟩ ["/u/fx.json"]
        (fun d => (d, none)) ⟨false, [], 0⟩).db
      = (setup [("m.B", ⟨fun r => r.any (fun p => p.1 == "id")⟩)] [] defaultRegistry
          ⟨[("/u/fx.json", [⟨some "m.B", none, [[("name", 1)]]⟩])]⟩ ["/u/fx.json"]
          ⟨false, [], 0⟩).1 ∧
    (runWrapped [("m.B", ⟨fun r => r.any (fun p => p.1 == "id")⟩)] [] defaultRegistry
        ⟨[("/u/fx.json", [⟨some "m.B", none, [[("name", 1)]]⟩])]⟩ ["/u/fx.json"]
        (fun d => (d, none)) ⟨false, [], 0⟩).db.created = true :=
  C1_setup_error_skips_teardown [("m.B", ⟨fun r => r.any (fun p => p.1 == "id")⟩)] []
    defaultRegistry ⟨[("/u/fx.json", [⟨some "m.B", none, [[("name", 1)]]⟩])]⟩
    ["/u/fx.json"] (fun d => (d, none)) ⟨false, [], 0⟩
    (.operationalError "could not construct model instance") rfl

/-- C5 counterexample: binding a class that defines no setup-hook alias
installs the default class setup hook, whose body only runs fixture setup —
it never assigns the session class attribute, contradicting the claim that
the session handle is exposed in every binding case. -/
theorem C5_counterexample :
    wrap_class ⟨[]⟩ defaultRegistry "/t/test_a.py" [] ["/abs/fx.json"] []
      = .ok ⟨["/abs/fx.json"], ⟨"setUpClass", [.runFixturesFn]⟩,
          ⟨"tearDownClass", [.runFixturesFn]⟩⟩ ∧
    HookAction.assignSession ∉ ([HookAction.runFixturesFn] : List HookAction) :=
  ⟨rfl, by decide⟩

/-- C5 as amended: the per-test-unit session handle is assigned by the bound
class setup hook only when the class had a pre-existing setup hook (the
wrapper assigns it between fixture setup and the original hook body); when
no setup hook pre-existed, the installed default hook performs fixture
setup only and assigns no session attribute. -/
theorem C5_session_only_when_hook_wrapped (defined : List String) (fs : FS)
    (registry : List LoaderVariant) (test_file_path : String)
    (fixtures_dirs : List String) (names : List String) (paths : List String)
    (td : BoundHook)
    (hres : find_fixtures fs registry test_file_path fixtures_dirs names = .ok paths)
    (htd : wrapHook defined CLASS_TEARDOWN_NAMES DEFAULT_CLASS_TEARDOWN_NAME = .ok td) :
    (CLASS_SETUP_NAMES.filter (fun nm => defined.contains nm) = [] →
      wrap_class fs registry test_file_path fixtures_dirs names defined
        = .ok ⟨paths, ⟨DEFAULT_CLASS_SETUP_NAME, [.runFixturesFn]⟩, td⟩ ∧
      HookAction.assignSession ∉ ([HookAction.runFixturesFn] : List HookAction)) ∧
    (∀ m, CLASS_SETUP_NAMES.filter (fun nm => defined.contains nm) = [m] →
      wrap_class fs registry test_file_path fixtures_dirs names defined
        = .ok ⟨paths, ⟨m, [.runFixturesFn, .assignSession, .runOriginal m]⟩, td⟩) := by
  constructor
  · intro hnone
    have hsu : wrapHook defined CLASS_SETUP_NAMES DEFAULT_CLASS_SETUP_NAME
        = .ok ⟨DEFAULT_CLASS_SETUP_NAME, [.runFixturesFn]⟩ := by
      simp only [wrapHook]
      rw [hnone]
      rfl
    refine ⟨?_, by decide⟩
    simp only [wrap_class, hres, hsu, htd]
  · intro m hone
    have hsu : wrapHook defined CLASS_SETUP_NAMES DEFAULT_CLASS_SETUP_NAME
        = .ok ⟨m, [.runFixturesFn, .assignSession, .runOriginal m]⟩ := by
      simp only [wrapHook]
      rw [hone]
      rfl
    simp only [wrap_class, hres, hsu, htd]

/-- Witness for C5's amended theorem: a class defining only `setUpClass`
gets a wrapped hook that assigns the session after fixture setup. -/
theorem C5_witness :
    wrap_class ⟨[]⟩ defaultRegistry "/t/test_w5.py" [] ["/abs/w5.json"] ["setUpClass"]
      = .ok ⟨["/abs/w5.json"],
          ⟨"setUpClass", [.runFixturesFn, .assignSession, .runOriginal "setUpClass"]⟩,
          ⟨"tearDownClass", [.runFixturesFn]⟩⟩ :=
  (C5_session_only_when_hook_wrapped ["setUpClass"] ⟨[]⟩ defaultRegistry "/t/test_w5.py"
    [] ["/abs/w5.json"] ["/abs/w5.json"] ⟨"tearDownClass", [.runFixturesFn]⟩
    rfl rfl).2 "setUpClass" (by decide)

/-- Textual containment: `msg` contains `sub` as a contiguous substring. -/
def mentions (msg sub : String) : Prop := ∃ p q, msg = p ++ sub ++ q

/-- Prepending text preserves textual containment. -/
theorem mentions_of_prepend (t msg sub : String) (h : mentions msg sub) :
    mentions (t ++ msg) sub := by
  obtain ⟨p, q, hpq⟩ := h
  exact ⟨t ++ p, q, by simp [hpq, String.append_assoc]⟩

/-- A comma-join of names contains each of its member names. -/
theorem mentions_joinComma (l : List String) (s : String) (h : s ∈ l) :
    mentions (joinComma l) s := by
  induction l with
  | nil => simp at h
  | cons a rest ih =>
    rcases List.mem_cons.mp h with rfl | hmem
    · cases rest with
      | nil =>
        exact ⟨"", "", by simp [joinComma, String.empty_append, String.append_empty]⟩
      | cons b bs =>
        exact ⟨"", ", " ++ joinComma (b :: bs),
          by simp [joinComma, String.empty_append, String.append_assoc]⟩
    · cases rest with
      | nil => simp at hmem
      | cons b bs =>
        obtain ⟨p, q, hpq⟩ := ih hmem
        exact ⟨a ++ ", " ++ p, q, by simp [joinComma, hpq, String.append_assoc]⟩

/-- C8: for a class whose fixtures resolve, defining more than one
setup-hook alias (or, failing that, more than one teardown-hook alias)
makes binding fail with a `RuntimeError` whose message textually names every
conflicting hook the failing check found. -/
theorem C8_conflicting_hooks_fatal (defined : List String) (fs : FS)
    (registry : List LoaderVariant) (test_file_path : String)
    (fixtures_dirs : List String) (names : List String) (paths : List String)
    (hres : find_fixtures fs registry test_file_path fixtures_dirs names = .ok paths)
    (hconf : 1 < (CLASS_SETUP_NAMES.filter (fun nm => defined.contains nm)).length ∨
             1 < (CLASS_TEARDOWN_NAMES.filter (fun nm => defined.contains nm)).length) :
    ∃ msg, wrap_class fs registry test_file_path fixtures_dirs names defined
        = .error (.runtimeError msg) ∧
      ∀ n, ((1 < (CLASS_SETUP_NAMES.filter (fun nm => defined.contains nm)).length ∧
              n ∈ CLASS_SETUP_NAMES.filter (fun nm => defined.contains nm)) ∨
            ((CLASS_SETUP_NAMES.filter (fun nm => defined.contains nm)).length ≤ 1 ∧
              n ∈ CLASS_TEARDOWN_NAMES.filter (fun nm => defined.contains nm) ∧
              1 < (CLASS_TEARDOWN_NAMES.filter (fun nm => defined.contains nm)).length)) →
        mentions msg n := by
  by_cases hsc : 1 < (CLASS_SETUP_NAMES.filter (fun nm => defined.contains nm)).length
  · refine ⟨"Cannot have more than one setup/teardown method, found "
        ++ joinComma (CLASS_SETUP_NAMES.filter (fun nm => defined.contains nm)), ?_, ?_⟩
    · have hsu : wrapHook defined CLASS_SETUP_NAMES DEFAULT_CLASS_SETUP_NAME
          = .error (.runtimeError
            ("Cannot have more than one setup/teardown method, found "
              ++ joinComma (CLASS_SETUP_NAMES.filter (fun nm => defined.contains nm)))) := by
        simp only [wrapHook, if_pos hsc]
      simp only [wrap_class, hres, hsu]
    · intro n hn
      rcases hn with ⟨_, hmem⟩ | ⟨hle, _, _⟩
      · exact mentions_of_prepend _ _ _ (mentions_joinComma _ _ hmem)
      · omega
  · have htc : 1 < (CLASS_TEARDOWN_NAMES.filter (fun nm => defined.contains nm)).length := by
      rcases hconf with h | h
      · exact absurd h hsc
      · exact h
    refine ⟨"Cannot have more than one setup/teardown method, found "
        ++ joinComma (CLASS_TEARDOWN_NAMES.filter (fun nm => defined.contains nm)), ?_, ?_⟩
    · have htd : wrapHook defined CLASS_TEARDOWN_NAMES DEFAULT_CLASS_TEARDOWN_NAME
          = .error (.runtimeError
            ("Cannot have more than one setup/teardown method, found "
              ++ joinComma (CLASS_TEARDOWN_NAMES.filter (fun nm => defined.contains nm)))) := by
        simp only [wrapHook, if_pos htc]
      by_cases h1 : (CLASS_SETUP_NAMES.filter (fun nm => defined.contains nm)).length = 1
      · have hsu : wrapHook defined CLASS_SETUP_NAMES DEFAULT_CLASS_SETUP_NAME
            = .ok ⟨(CLASS_SETUP_NAMES.filter (fun nm => defined.contains nm)).headD
                DEFAULT_CLASS_SETUP_NAME,
              [.runFixturesFn, .assignSession,
                .runOriginal ((CLASS_SETUP_NAMES.filter
                  (fun nm => defined.contains nm)).headD DEFAULT_CLASS_SETUP_NAME)]⟩ := by
          simp only [wrapHook, if_neg hsc, if_pos h1]
        simp only [wrap_class, hres, hsu, htd]
      · have hsu : wrapHook defined CLASS_SETUP_NAMES DEFAULT_CLASS_SETUP_NAME
            = .ok ⟨DEFAULT_CLASS_SETUP_NAME, [.runFixturesFn]⟩ := by
          simp only [wrapHook, if_neg hsc, if_neg h1]
        simp only [wrap_class, hres, hsu, htd]
    · intro n hn
      rcases hn with ⟨hgt, _⟩ | ⟨_, hmem, _⟩
      · exact absurd hgt hsc
      · exact mentions_of_prepend _ _ _ (mentions_joinComma _ _ hmem)

/-- Witness for C8: a class defining both `setup_class` and `setUpClass`. -/
theorem C8_witness :
    ∃ msg, wrap_class ⟨[]⟩ defaultRegistry "/t/test_c8.py" [] ["/abs/c8.json"]
        ["setup_class", "setUpClass"] = .error (.runtimeError msg) ∧
      mentions msg "setup_class" ∧ mentions msg "setUpClass" := by
  obtain ⟨msg, hmsg, hall⟩ := C8_conflicting_hooks_fatal ["setup_class", "setUpClass"]
    ⟨[]⟩ defaultRegistry "/t/test_c8.py" [] ["/abs/c8.json"] ["/abs/c8.json"]
    rfl (Or.inl (by decide))
  exact ⟨msg, hmsg,
    hall "setup_class" (Or.inl ⟨by decide, by decide⟩),
    hall "setUpClass" (Or.inl ⟨by decide, by decide⟩)⟩

/-- The paths whose load setup reaches form an initial segment of the path
list setup was given. -/
theorem setupLoop_used (env : ModelEnv) (metadata : List String)
    (registry : List LoaderVariant) (fs : FS) :
    ∀ (paths : List String) (db : DB),
      ∃ rest, paths = (setupLoop env metadata registry fs paths db).2.2 ++ rest := by
  intro paths
  induction paths with
  | nil => intro db; exact ⟨[], rfl⟩
  | cons p ps ih =>
    intro db
    cases hl : (FixtureLoader.load registry fs p).1 with
    | error e => exact ⟨ps, by simp [setupLoop, hl]⟩
    | ok fxs =>
      rcases hlf : load_fixtures env metadata fxs db with ⟨db1, er⟩
      cases er with
      | some e => exact ⟨ps, by simp [setupLoop, hl, hlf]⟩
      | none =>
        obtain ⟨rest, hrest⟩ := ih db1
        exact ⟨rest, by simpa [setupLoop, hl, hlf] using congrArg (List.cons p) hrest⟩

/-- Whatever the wrapper's run does, the fixture paths it consumed are the
ones setup was given. -/
theorem runWrapped_used (env : ModelEnv) (metadata : List String)
    (registry : List LoaderVariant) (fs : FS) (fixtures : List String)
    (body : DB → DB × Option PyError) (db : DB) :
    (runWrapped env metadata registry fs fixtures body db).usedFixtures
      = (setup env metadata registry fs fixtures db).2.2 := by
  rcases hs : setup env metadata registry fs fixtures db with ⟨db1, er, used⟩
  cases er <;> simp [runWrapped, hs]

/-- C10: fixture resolution runs once, at decoration/binding time — the
wrapped test function and the bound class carry the list resolved against
the decoration-time filesystem, and any later invocation, against any
filesystem, only ever materializes paths from that decoration-time list. -/
theorem C10_resolution_at_decoration (fs1 : FS) (registry : List LoaderVariant)
    (tfp : String) (fdirs : List String) (names : List String) (w : WrappedTest)
    (fs1c : FS) (tfpc : String) (fdirsc : List String) (namesc : List String)
    (defined : List String) (bc : BoundClass)
    (hw : wrap_method fs1 registry tfp fdirs names = .ok w)
    (hc : wrap_class fs1c registry tfpc fdirsc namesc defined = .ok bc) :
    find_fixtures fs1 registry tfp fdirs names = .ok w.resolvedFixtures ∧
    (∀ env metadata fs2 body db, ∃ rest, w.resolvedFixtures
      = (invokeWrapped env metadata registry fs2 w body db).usedFixtures ++ rest) ∧
    find_fixtures fs1c registry tfpc fdirsc namesc = .ok bc.resolvedFixtures ∧
    (∀ env metadata fs2 db, ∃ rest, bc.resolvedFixtures
      = (invokeClassSetup env metadata registry fs2 bc db).2.2 ++ rest) := by
  refine ⟨?_, ?_, ?_, ?_⟩
  · unfold wrap_method at hw
    cases hf : find_fixtures fs1 registry tfp fdirs names with
    | error e => rw [hf] at hw; exact absurd hw (by simp)
    | ok paths =>
      rw [hf] at hw
      simp only [Except.ok.injEq] at hw
      subst hw
      rfl
  · intro env metadata fs2 body db
    simpa [invokeWrapped, runWrapped_used, setup] using
      setupLoop_used env metadata registry fs2 w.resolvedFixtures
        { db with created := true }
  · unfold wrap_class at hc
    cases hf : find_fixtures fs1c registry tfpc fdirsc namesc with
    | error e => rw [hf] at hc; exact absurd hc (by simp)
    | ok paths =>
      rw [hf] at hc
      cases hsu : wrapHook defined CLASS_SETUP_NAMES DEFAULT_CLASS_SETUP_NAME with
      | error e => rw [hsu] at hc; exact absurd hc (by simp)
      | ok su =>
        rw [hsu] at hc
        cases htd : wrapHook defined CLASS_TEARDOWN_NAMES DEFAULT_CLASS_TEARDOWN_NAME with
        | error e => rw [htd] at hc; exact absurd hc (by simp)
        | ok td =>
          rw [htd] at hc
          simp only [Except.ok.injEq] at hc
          subst hc
          rfl
  · intro env metadata fs2 db
    simpa [invokeClassSetup, setup] using
      setupLoop_used env metadata registry fs2 bc.resolvedFixtures
        { db with created := true }

/-- Witness for C10 at concrete decoration-time and call-time filesystems. -/
theorem C10_witness :
    find_fixtures ⟨[]⟩ defaultRegistry "/t/test_d.py" [] ["/abs/a.json"]
      = .ok ["/abs/a.json"] ∧
    (∃ rest, (["/abs/a.json"] : List String)
      = (invokeWrapped [] [] defaultRegistry ⟨[]⟩ ⟨["/abs/a.json"]⟩
          (fun d => (d, none)) ⟨false, [], 0⟩).usedFixtures ++ rest) ∧
    find_fixtures ⟨[]⟩ defaultRegistry "/t/test_e.py" [] ["/abs/b.json"]
      = .ok ["/abs/b.json"] ∧
    (∃ rest, (["/abs/b.json"] : List String)
      = (invokeClassSetup [] [] defaultRegistry ⟨[]⟩
          ⟨["/abs/b.json"], ⟨"setUpClass", [.runFixturesFn]⟩,
            ⟨"tearDownClass", [.runFixturesFn]⟩⟩ ⟨false, [], 0⟩).2.2 ++ rest) := by
  obtain ⟨h1, h2, h3, h4⟩ := C10_resolution_at_decoration ⟨[]⟩ defaultRegistry
    "/t/test_d.py" [] ["/abs/a.json"] ⟨["/abs/a.json"]⟩ ⟨[]⟩ "/t/test_e.py" []
    ["/abs/b.json"] []
    ⟨["/abs/b.json"], ⟨"setUpClass", [.runFixturesFn]⟩,
      ⟨"tearDownClass", [.runFixturesFn]⟩⟩ rfl rfl
  exact ⟨h1, h2 [] [] ⟨[]⟩ (fun d => (d, none)) ⟨false, [], 0⟩, h3,
    h4 [] [] ⟨[]⟩ ⟨false, [], 0⟩⟩

end Faux
